import Mathlib

/-!
Verification of the bootstrap entrypoint of the machine-api-migration process
(cmd/machine-api-migration/main.go).

The file below is a shallow embedding of that entrypoint: the flag surface,
the leader-election configuration, the manager options (metrics, health
address, leader election, object cache), the feature-gate probe
(getFeatureGates) and the control flow of main, modelled as a trace of
events over an environment recording the outcome of each external call
(manager construction, config client construction, whether the initial
feature-gate observation arrives before the 60 second timer, snapshot
reads, health/ready registration, and the manager event loop).

Durations are modelled in seconds as natural numbers.
-/

namespace MachineAPIMigration

/-- Modelled from the spec: values supplied by repository packages that are
not part of the surveyed file — pkg/util provides the leader-election
default durations (the spec states they satisfy retry < renew < lease) and
GetReleaseVersion (the running process release version), and
pkg/controllers provides DefaultManagedNamespace. These are inputs to the
entrypoint, so they are parameters of the model. -/
structure ExternalConfig where
  defaultLeaseDurationSec : Nat
  defaultRenewDeadlineSec : Nat
  defaultRetryPeriodSec : Nat
  defaultManagedNamespace : String
  releaseVersion : String
deriving DecidableEq, Repr

/-- The command line, one field per recognized flag; none means the flag is
absent so its default applies. The flags are the ones registered in main:
health-addr, namespace, logtostderr, the diagnostics flag
metrics-bind-addr, and the leader-election flags bound by
options.BindLeaderElectionFlags from k8s.io/component-base (leader-elect,
the three durations, resource name and resource namespace). -/
structure Flags where
  healthAddr : Option String := none
  namespaceFlag : Option String := none
  logtostderr : Option Bool := none
  metricsBindAddr : Option String := none
  leaderElect : Option Bool := none
  leaderElectLeaseDurationSec : Option Nat := none
  leaderElectRenewDeadlineSec : Option Nat := none
  leaderElectRetryPeriodSec : Option Nat := none
  leaderElectResourceName : Option String := none
  leaderElectResourceNamespace : Option String := none
deriving DecidableEq, Repr

/-- config.LeaderElectionConfiguration, the fields main uses. -/
structure LeaderElectionConfiguration where
  leaderElect : Bool
  leaseDurationSec : Nat
  renewDeadlineSec : Nat
  retryPeriodSec : Nat
  resourceName : String
  resourceNamespace : String
deriving DecidableEq, Repr

/-- The literal leaderElectionConfig value built at the top of main
(main.go lines 61-68). -/
def initialLeaderElectionConfig (cfg : ExternalConfig) : LeaderElectionConfiguration :=
  { leaderElect := true
    leaseDurationSec := cfg.defaultLeaseDurationSec
    renewDeadlineSec := cfg.defaultRenewDeadlineSec
    retryPeriodSec := cfg.defaultRetryPeriodSec
    resourceName := "machine-api-migration-leader"
    resourceNamespace := "openshift-cluster-api" }

/-- Embedding of options.BindLeaderElectionFlags followed by pflag.Parse
(main.go lines 96-99): each leader-election flag present on the command
line overwrites the corresponding field of the configuration; absent flags
leave the value built in main in place. -/
def bindLeaderElectionFlags (c : LeaderElectionConfiguration) (f : Flags) :
    LeaderElectionConfiguration :=
  { leaderElect := f.leaderElect.getD c.leaderElect
    leaseDurationSec := f.leaderElectLeaseDurationSec.getD c.leaseDurationSec
    renewDeadlineSec := f.leaderElectRenewDeadlineSec.getD c.renewDeadlineSec
    retryPeriodSec := f.leaderElectRetryPeriodSec.getD c.retryPeriodSec
    resourceName := f.leaderElectResourceName.getD c.resourceName
    resourceNamespace := f.leaderElectResourceNamespace.getD c.resourceNamespace }

/-- Value of the health-addr flag after parsing (default ":9441"). -/
def parsedHealthAddr (f : Flags) : String :=
  f.healthAddr.getD ":9441"

/-- Value of the namespace flag after parsing (default
controllers.DefaultManagedNamespace). -/
def parsedNamespace (cfg : ExternalConfig) (f : Flags) : String :=
  f.namespaceFlag.getD cfg.defaultManagedNamespace

/-- Value of the logtostderr flag after parsing (default true). -/
def parsedLogToStderr (f : Flags) : Bool :=
  f.logtostderr.getD true

/-- Value of the metrics-bind-addr diagnostics flag after parsing; the
default is the MetricsBindAddr literal ":8081" set in main (lines 69-71),
which capiflags.AddDiagnosticsOptions registers as the flag default. -/
def parsedMetricsBindAddr (f : Flags) : String :=
  f.metricsBindAddr.getD ":8081"

/-- cache.Options as built in main (lines 106-113): the DefaultNamespaces
map holds the single key *managedNamespace (whose value is the empty
per-namespace cache.Config, carrying no data), and SyncPeriod is the
10 minute syncPeriod. The map is modelled by its list of keys. -/
structure CacheOptions where
  defaultNamespaces : List String
  syncPeriodSec : Nat
deriving DecidableEq, Repr

/-- The cacheOpts value of main: one namespace, 10 minute resync. -/
def cacheOpts (cfg : ExternalConfig) (f : Flags) : CacheOptions :=
  { defaultNamespaces := [parsedNamespace cfg f]
    syncPeriodSec := 10 * 60 }

/-- ctrl.Options as passed to ctrl.NewManager (main.go lines 117-128),
restricted to the fields the claims are about. -/
structure ManagerOptions where
  metricsBindAddr : String
  healthProbeBindAddress : String
  leaderElectionNamespace : String
  leaderElection : Bool
  leaseDurationSec : Nat
  leaderElectionID : String
  retryPeriodSec : Nat
  renewDeadlineSec : Nat
  cache : CacheOptions
deriving DecidableEq, Repr

/-- The ctrl.Options value main passes to ctrl.NewManager, as a function of
the external configuration and the parsed command line. -/
def managerOptions (cfg : ExternalConfig) (f : Flags) : ManagerOptions :=
  let lec := bindLeaderElectionFlags (initialLeaderElectionConfig cfg) f
  { metricsBindAddr := parsedMetricsBindAddr f
    healthProbeBindAddress := parsedHealthAddr f
    leaderElectionNamespace := lec.resourceNamespace
    leaderElection := lec.leaderElect
    leaseDurationSec := lec.leaseDurationSec
    leaderElectionID := lec.resourceName
    retryPeriodSec := lec.retryPeriodSec
    renewDeadlineSec := lec.renewDeadlineSec
    cache := cacheOpts cfg f }

/-- The two informers getFeatureGates takes from its shared informer
factory. -/
inductive ConfigInformerKind where
  | clusterVersions
  | featureGates
deriving DecidableEq, Repr

/-- An informer obtained from a shared informer factory; it carries the
resync period of the factory it came from. -/
structure ConfigInformer where
  factoryResyncSec : Nat
  kind : ConfigInformerKind
deriving DecidableEq, Repr

/-- The arguments with which getFeatureGates constructs the feature-gate
accessor (featuregates.NewFeatureGateAccess, main.go lines 190-195). -/
structure FeatureGateAccessArgs where
  desiredVersion : String
  missingVersion : String
  clusterVersionsInformer : ConfigInformer
  featureGatesInformer : ConfigInformer
  eventRecorderComponent : String
deriving DecidableEq, Repr

/-- The accessor arguments as built by getFeatureGates: desiredVersion is
util.GetReleaseVersion (the running process release version),
missingVersion is the sentinel "0.0.1-snapshot", and both informers come
from the shared informer factory created with a 10 minute resync. -/
def featureGateAccessArgs (cfg : ExternalConfig) : FeatureGateAccessArgs :=
  { desiredVersion := cfg.releaseVersion
    missingVersion := "0.0.1-snapshot"
    clusterVersionsInformer := { factoryResyncSec := 10 * 60, kind := .clusterVersions }
    featureGatesInformer := { factoryResyncSec := 10 * 60, kind := .featureGates }
    eventRecorderComponent := "machineapimigration" }

/-- The errors getFeatureGates can return: the wrapped config client
construction error, or the distinguished errTimedOutWaitingForFeatureGates
("timed out waiting for feature gates to be initialized"). -/
inductive ProbeError where
  | configClientError
  | timedOutWaitingForFeatureGates
deriving DecidableEq, Repr

/-- The distinguished error value declared at the top of the file
(main.go lines 46-49). -/
def errTimedOutWaitingForFeatureGates : ProbeError :=
  .timedOutWaitingForFeatureGates

/-- Outcomes of the external calls made during one startup; each field
records what the environment does at the corresponding call site. -/
structure RunEnv where
  /-- ctrl.NewManager returns without error. -/
  managerOk : Bool
  /-- configv1client.NewForConfig returns without error. -/
  configClientOk : Bool
  /-- InitialFeatureGatesObserved fires before the 1 minute time.After
  timer, so the select takes the observation branch. -/
  initialObservedWithin60s : Bool
  /-- The CurrentFeatureGates call inside getFeatureGates (whose error is
  discarded) returns without error. -/
  currentFeatureGatesOkInProbe : Bool
  /-- The CurrentFeatureGates call in main returns without error. -/
  currentFeatureGatesOkInMain : Bool
  /-- The observed snapshot has the MachineAPIMigration gate enabled. -/
  machineAPIMigrationEnabled : Bool
  /-- mgr.AddHealthzCheck returns without error. -/
  healthzAddOk : Bool
  /-- mgr.AddReadyzCheck returns without error. -/
  readyzAddOk : Bool
  /-- mgr.Start returns nil (clean shutdown on signal) rather than an
  error. -/
  managerStartOk : Bool
deriving DecidableEq, Repr

/-- The error outcome of getFeatureGates (main.go lines 178-207) as a
function of the run environment alone: the wrapped config client
construction error is returned first; otherwise the select between the
initial observation and the 1 minute timer either succeeds (no error) or
yields the distinguished timeout error. -/
def probeError (e : RunEnv) : Option ProbeError :=
  if e.configClientOk = false then
    some .configClientError
  else if e.initialObservedWithin60s then
    none
  else
    some errTimedOutWaitingForFeatureGates

/-- getFeatureGates (main.go lines 178-207): build the config client
(error is fatal to the probe), construct the accessor and start it and the
informer factory in the background, then select between the initial
observation and a 1 minute timer. On observation the snapshot is read once
more for an informational log line and its error is discarded; the
accessor is returned with a nil error. On timeout the distinguished error
is returned. -/
def getFeatureGates (cfg : ExternalConfig) (e : RunEnv) :
    Except ProbeError FeatureGateAccessArgs :=
  match probeError e with
  | some er => .error er
  | none =>
    -- featureGates, _ := featureGateAccessor.CurrentFeatureGates():
    -- the error of this read is discarded; the snapshot feeds only the
    -- "FeatureGates initialized" log line.
    let _snapshotReadOk := e.currentFeatureGatesOkInProbe
    .ok (featureGateAccessArgs cfg)

/-- Observable events of one startup, in program order. -/
inductive Event where
  /-- ctrl.SetLogger with the text logger. -/
  | setupLogger
  /-- pflag.Parse. -/
  | parseFlags
  /-- ctrl.NewManager. -/
  | newManager
  /-- ctrl.SetupSignalHandler: the OS shutdown signal handler is
  installed. -/
  | setupSignalHandler
  /-- getFeatureGates runs (including its blocking select). -/
  | probeFeatureGates
  /-- The CurrentFeatureGates call in main. -/
  | readCurrentFeatureGates
  /-- The informational notice that the gate is not enabled. -/
  | logGateNotEnabled
  /-- The idle block on stop.Done(). -/
  | waitForSignal
  /-- mgr.AddHealthzCheck with the given probe name. -/
  | addHealthzCheck (name : String)
  /-- mgr.AddReadyzCheck with the given probe name. -/
  | addReadyzCheck (name : String)
  /-- mgr.Start begins the manager event loop. -/
  | managerStart
  /-- The process exits with the given code (os.Exit, or main returning
  normally which exits 0). -/
  | osExit (code : Nat)
deriving DecidableEq, Repr

/-- The trace of one run of main (main.go lines 57-174) under environment
e: logger and flag setup, manager construction (fatal on error), signal
handler installation, the feature-gate probe (fatal on error), the
snapshot read in main (fatal on error), then the branch on the
MachineAPIMigration gate: if disabled, log the notice, block on the
signal, exit 0; if enabled, register the health and ready checks (each
fatal on error) and run the manager event loop (exit 1 on error, exit 0
on clean return). -/
def mainTrace (e : RunEnv) : List Event :=
  [.setupLogger, .parseFlags, .newManager] ++
  (if e.managerOk = false then [.osExit 1] else
    .setupSignalHandler ::
    .probeFeatureGates ::
    (match probeError e with
     | some _ => [.osExit 1]
     | none =>
       .readCurrentFeatureGates ::
       (if e.currentFeatureGatesOkInMain = false then [.osExit 1]
        else if e.machineAPIMigrationEnabled = false then
          [.logGateNotEnabled, .waitForSignal, .osExit 0]
        else
          .addHealthzCheck "health" ::
          (if e.healthzAddOk = false then [.osExit 1] else
            .addReadyzCheck "check" ::
            (if e.readyzAddOk = false then [.osExit 1] else
              .managerStart ::
              (if e.managerStartOk then [.osExit 0] else [.osExit 1]))))))

/-- The exit code of a trace: the code of its final osExit event. -/
def finalExitCode (l : List Event) : Option Nat :=
  match l.getLast? with
  | some (.osExit c) => some c
  | _ => none

/-- A sample external configuration for concrete runs: default durations
satisfying the documented retry < renew < lease ordering, a managed
namespace and a release version. -/
def cfgSample : ExternalConfig :=
  { defaultLeaseDurationSec := 137
    defaultRenewDeadlineSec := 107
    defaultRetryPeriodSec := 26
    defaultManagedNamespace := "openshift-cluster-api"
    releaseVersion := "4.19.0" }

/-- A run where every external call succeeds, the initial observation
arrives in time, and the MachineAPIMigration gate is disabled. -/
def envGateDisabled : RunEnv :=
  { managerOk := true
    configClientOk := true
    initialObservedWithin60s := true
    currentFeatureGatesOkInProbe := true
    currentFeatureGatesOkInMain := true
    machineAPIMigrationEnabled := false
    healthzAddOk := true
    readyzAddOk := true
    managerStartOk := true }

/-- A run where every external call succeeds and the gate is enabled. -/
def envGateEnabled : RunEnv :=
  { envGateDisabled with machineAPIMigrationEnabled := true }

/-- A run where the config client is built but the initial observation
never arrives before the 60 second timer. -/
def envTimeout : RunEnv :=
  { envGateDisabled with initialObservedWithin60s := false }

/-- A run where the snapshot read inside the probe fails (its error is
discarded there) and the snapshot read in main fails as well. -/
def envSnapshotReadFails : RunEnv :=
  { envGateDisabled with
    currentFeatureGatesOkInProbe := false
    currentFeatureGatesOkInMain := false }

/-- C1: in every startup that reaches the gate check and observes the
MachineAPIMigration gate disabled, the trace is exactly logger and flag
setup, manager construction, signal handler installation, the probe, the
snapshot read, the informational notice, the block on the shutdown signal,
and exit code 0; in particular the manager event loop never starts. -/
theorem gateDisabled_idle_exit0 (e : RunEnv)
    (hm : e.managerOk = true) (hc : e.configClientOk = true)
    (ho : e.initialObservedWithin60s = true) (hr : e.currentFeatureGatesOkInMain = true)
    (hg : e.machineAPIMigrationEnabled = false) :
    mainTrace e =
      [.setupLogger, .parseFlags, .newManager, .setupSignalHandler, .probeFeatureGates,
       .readCurrentFeatureGates, .logGateNotEnabled, .waitForSignal, .osExit 0] ∧
    Event.managerStart ∉ mainTrace e ∧
    finalExitCode (mainTrace e) = some 0 := by
  have ht : mainTrace e =
      [.setupLogger, .parseFlags, .newManager, .setupSignalHandler, .probeFeatureGates,
       .readCurrentFeatureGates, .logGateNotEnabled, .waitForSignal, .osExit 0] := by
    simp [mainTrace, probeError, hm, hc, ho, hr, hg]
  refine ⟨ht, ?_, ?_⟩
  · rw [ht]; decide
  · rw [ht]; decide

/-- Witness for C1 at a concrete run. -/
theorem gateDisabled_idle_exit0_witness :
    mainTrace envGateDisabled =
      [.setupLogger, .parseFlags, .newManager, .setupSignalHandler, .probeFeatureGates,
       .readCurrentFeatureGates, .logGateNotEnabled, .waitForSignal, .osExit 0] ∧
    Event.managerStart ∉ mainTrace envGateDisabled ∧
    finalExitCode (mainTrace envGateDisabled) = some 0 :=
  gateDisabled_idle_exit0 envGateDisabled rfl rfl rfl rfl rfl

/-- C2: once the config client is built, the probe returns the
distinguished errTimedOutWaitingForFeatureGates exactly when the 60 second
timer fires before the initial observation; when the observation arrives
first, the probe returns the accessor with no error. -/
theorem getFeatureGates_timeout_iff (cfg : ExternalConfig) (e : RunEnv)
    (hc : e.configClientOk = true) :
    (getFeatureGates cfg e = .error errTimedOutWaitingForFeatureGates ↔
      e.initialObservedWithin60s = false) ∧
    (e.initialObservedWithin60s = true →
      getFeatureGates cfg e = .ok (featureGateAccessArgs cfg)) := by
  cases h : e.initialObservedWithin60s <;>
    simp [getFeatureGates, probeError, hc, h, errTimedOutWaitingForFeatureGates]

/-- Witness for C2 at a concrete configuration and a run that times out. -/
theorem getFeatureGates_timeout_iff_witness :
    (getFeatureGates cfgSample envTimeout = .error errTimedOutWaitingForFeatureGates ↔
      envTimeout.initialObservedWithin60s = false) ∧
    (envTimeout.initialObservedWithin60s = true →
      getFeatureGates cfgSample envTimeout = .ok (featureGateAccessArgs cfgSample)) :=
  getFeatureGates_timeout_iff cfgSample envTimeout rfl

/-- C3: in every startup that reaches the gate check with the gate
enabled, whenever the manager event loop starts the trace contains the
liveness registration "health" and then the readiness registration "check"
strictly before the event loop start, and if either registration fails the
process exits 1 without the event loop ever starting. -/
theorem healthChecks_before_managerStart (e : RunEnv)
    (hm : e.managerOk = true) (hc : e.configClientOk = true)
    (ho : e.initialObservedWithin60s = true) (hr : e.currentFeatureGatesOkInMain = true)
    (hg : e.machineAPIMigrationEnabled = true) :
    (Event.managerStart ∈ mainTrace e →
      List.Sublist
        [Event.addHealthzCheck "health", Event.addReadyzCheck "check", Event.managerStart]
        (mainTrace e)) ∧
    ((e.healthzAddOk = false ∨ e.readyzAddOk = false) →
      Event.managerStart ∉ mainTrace e ∧
      finalExitCode (mainTrace e) = some 1) := by
  obtain ⟨m, c, o, pr, cm, g, hz, rz, st⟩ := e
  simp only at hm hc ho hr hg
  subst hm hc ho hr hg
  cases hz <;> cases rz <;> cases st <;> cases pr <;> decide

/-- Witness for C3 at a concrete enabled-gate run. -/
theorem healthChecks_before_managerStart_witness :
    (Event.managerStart ∈ mainTrace envGateEnabled →
      List.Sublist
        [Event.addHealthzCheck "health", Event.addReadyzCheck "check", Event.managerStart]
        (mainTrace envGateEnabled)) ∧
    ((envGateEnabled.healthzAddOk = false ∨ envGateEnabled.readyzAddOk = false) →
      Event.managerStart ∉ mainTrace envGateEnabled ∧
      finalExitCode (mainTrace envGateEnabled) = some 1) :=
  healthChecks_before_managerStart envGateEnabled rfl rfl rfl rfl rfl

/-- C4: in every startup, whenever the feature-gate probe runs, the idle
wait on the shutdown signal happens, or the manager event loop starts, the
installation of the OS shutdown signal handler occurs strictly earlier in
the trace, so every blocking wait uses the already-installed signal
context. -/
theorem signalHandler_before_blocking (e : RunEnv) :
    (Event.probeFeatureGates ∈ mainTrace e →
      List.Sublist [Event.setupSignalHandler, Event.probeFeatureGates] (mainTrace e)) ∧
    (Event.waitForSignal ∈ mainTrace e →
      List.Sublist [Event.setupSignalHandler, Event.waitForSignal] (mainTrace e)) ∧
    (Event.managerStart ∈ mainTrace e →
      List.Sublist [Event.setupSignalHandler, Event.managerStart] (mainTrace e)) := by
  obtain ⟨m, c, o, pr, cm, g, hz, rz, st⟩ := e
  cases m <;> cases c <;> cases o <;> cases pr <;> cases cm <;> cases g <;>
    cases hz <;> cases rz <;> cases st <;> decide

/-- Witness for C4 at a concrete run (C4 has no hypothesis of its own; the
inner implications are discharged on the concrete trace). -/
theorem signalHandler_before_blocking_witness :
    List.Sublist [Event.setupSignalHandler, Event.waitForSignal]
      (mainTrace envGateDisabled) :=
  (signalHandler_before_blocking envGateDisabled).2.1 (by decide)

/-- A command line carrying only the flag leader-elect=false. -/
def flagsLeaderElectOff : Flags :=
  { leaderElect := some false }

/-- A command line overriding the three leader-election durations with
values that violate the retry < renew < lease ordering (lease 1s,
renew 2s, retry 3s). -/
def flagsBadDurations : Flags :=
  { leaderElectLeaseDurationSec := some 1
    leaderElectRenewDeadlineSec := some 2
    leaderElectRetryPeriodSec := some 3 }

/-- C5 counterexample: the claim fails on the execution with command line
leader-elect=false — options.BindLeaderElectionFlags binds the enable
flag as well as the resource name and namespace, so leader election is
not enabled in every execution and the values of the initial
configuration are overridden by flag parsing. -/
theorem leaderElection_not_fixed_counterexample :
    ¬ ((managerOptions cfgSample flagsLeaderElectOff).leaderElection = true ∧
       (managerOptions cfgSample flagsLeaderElectOff).leaderElectionID =
         "machine-api-migration-leader" ∧
       (managerOptions cfgSample flagsLeaderElectOff).leaderElectionNamespace =
         "openshift-cluster-api") := by
  decide

/-- C5 amended: in every execution whose command line carries none of the
leader-elect, leader-elect-resource-name and leader-elect-resource-namespace
flags, the manager is constructed with leader election enabled, lease
resource name "machine-api-migration-leader" and namespace
"openshift-cluster-api"; no step after flag parsing changes them. -/
theorem leaderElection_enabled_fixed_without_flag_overrides
    (cfg : ExternalConfig) (f : Flags)
    (h1 : f.leaderElect = none) (h2 : f.leaderElectResourceName = none)
    (h3 : f.leaderElectResourceNamespace = none) :
    (managerOptions cfg f).leaderElection = true ∧
    (managerOptions cfg f).leaderElectionID = "machine-api-migration-leader" ∧
    (managerOptions cfg f).leaderElectionNamespace = "openshift-cluster-api" := by
  simp [managerOptions, bindLeaderElectionFlags, initialLeaderElectionConfig, h1, h2, h3]

/-- Witness for the amended C5 at a concrete configuration and an empty
command line. -/
theorem leaderElection_enabled_fixed_witness :
    (managerOptions cfgSample {}).leaderElection = true ∧
    (managerOptions cfgSample {}).leaderElectionID = "machine-api-migration-leader" ∧
    (managerOptions cfgSample {}).leaderElectionNamespace = "openshift-cluster-api" :=
  leaderElection_enabled_fixed_without_flag_overrides cfgSample {} rfl rfl rfl

/-- C6: for every configuration and command line, the cache passed to the
manager has exactly one default namespace — the parsed value of the
namespace flag — and a 10 minute (600 second) periodic resync. -/
theorem cache_single_namespace (cfg : ExternalConfig) (f : Flags) :
    (managerOptions cfg f).cache.defaultNamespaces = [parsedNamespace cfg f] ∧
    (managerOptions cfg f).cache.syncPeriodSec = 10 * 60 := by
  simp [managerOptions, cacheOpts]

/-- C7: the feature-gate accessor is constructed with the running process
release version as the desired version, the sentinel "0.0.1-snapshot" as
the missing version, the cluster-versions and feature-gates informers of a
shared informer factory with a 10 minute resync, and when the probe
succeeds it returns exactly this accessor. -/
theorem featureGateAccessor_construction (cfg : ExternalConfig) (e : RunEnv)
    (hc : e.configClientOk = true) (ho : e.initialObservedWithin60s = true) :
    (featureGateAccessArgs cfg).desiredVersion = cfg.releaseVersion ∧
    (featureGateAccessArgs cfg).missingVersion = "0.0.1-snapshot" ∧
    (featureGateAccessArgs cfg).clusterVersionsInformer =
      { factoryResyncSec := 10 * 60, kind := .clusterVersions } ∧
    (featureGateAccessArgs cfg).featureGatesInformer =
      { factoryResyncSec := 10 * 60, kind := .featureGates } ∧
    getFeatureGates cfg e = .ok (featureGateAccessArgs cfg) := by
  refine ⟨rfl, rfl, rfl, rfl, ?_⟩
  simp [getFeatureGates, probeError, hc, ho]

/-- Witness for C7 at a concrete configuration and run. -/
theorem featureGateAccessor_construction_witness :
    (featureGateAccessArgs cfgSample).desiredVersion = cfgSample.releaseVersion ∧
    (featureGateAccessArgs cfgSample).missingVersion = "0.0.1-snapshot" ∧
    (featureGateAccessArgs cfgSample).clusterVersionsInformer =
      { factoryResyncSec := 10 * 60, kind := .clusterVersions } ∧
    (featureGateAccessArgs cfgSample).featureGatesInformer =
      { factoryResyncSec := 10 * 60, kind := .featureGates } ∧
    getFeatureGates cfgSample envGateEnabled = .ok (featureGateAccessArgs cfgSample) :=
  featureGateAccessor_construction cfgSample envGateEnabled rfl rfl

/-- C8 counterexample: the claim fails on the execution whose command line
supplies leader-election durations lease 1s, renew 2s, retry 3s — the
durations the process then uses do not satisfy retry < renew < lease. -/
theorem duration_ordering_broken_by_flags :
    ¬ ((managerOptions cfgSample flagsBadDurations).retryPeriodSec <
         (managerOptions cfgSample flagsBadDurations).renewDeadlineSec ∧
       (managerOptions cfgSample flagsBadDurations).renewDeadlineSec <
         (managerOptions cfgSample flagsBadDurations).leaseDurationSec) := by
  decide

/-- C8 amended: in every execution whose command line carries none of the
three leader-election duration flags, the durations used by the process
are the package defaults and satisfy retry < renew < lease whenever those
defaults do (as the spec states they do). -/
theorem duration_ordering_with_default_durations (cfg : ExternalConfig) (f : Flags)
    (hd1 : cfg.defaultRetryPeriodSec < cfg.defaultRenewDeadlineSec)
    (hd2 : cfg.defaultRenewDeadlineSec < cfg.defaultLeaseDurationSec)
    (h1 : f.leaderElectLeaseDurationSec = none)
    (h2 : f.leaderElectRenewDeadlineSec = none)
    (h3 : f.leaderElectRetryPeriodSec = none) :
    (managerOptions cfg f).retryPeriodSec < (managerOptions cfg f).renewDeadlineSec ∧
    (managerOptions cfg f).renewDeadlineSec < (managerOptions cfg f).leaseDurationSec := by
  simp only [managerOptions, bindLeaderElectionFlags, initialLeaderElectionConfig,
    h1, h2, h3, Option.getD_none]
  exact ⟨hd1, hd2⟩

/-- Witness for the amended C8 at a concrete configuration and an empty
command line. -/
theorem duration_ordering_witness :
    (managerOptions cfgSample {}).retryPeriodSec <
      (managerOptions cfgSample {}).renewDeadlineSec ∧
    (managerOptions cfgSample {}).renewDeadlineSec <
      (managerOptions cfgSample {}).leaseDurationSec :=
  duration_ordering_with_default_durations cfgSample {}
    (by decide) (by decide) rfl rfl rfl

/-- C9: in every execution started with none of the health-addr,
metrics-bind-addr, logtostderr and namespace flags, the manager is
constructed with health bind address ":9441" and metrics bind address
":8081", logging goes to standard error, and the managed namespace is the
default of the external controllers package. -/
theorem flag_defaults (cfg : ExternalConfig) (f : Flags)
    (h1 : f.healthAddr = none) (h2 : f.metricsBindAddr = none)
    (h3 : f.logtostderr = none) (h4 : f.namespaceFlag = none) :
    (managerOptions cfg f).healthProbeBindAddress = ":9441" ∧
    (managerOptions cfg f).metricsBindAddr = ":8081" ∧
    parsedLogToStderr f = true ∧
    parsedNamespace cfg f = cfg.defaultManagedNamespace := by
  simp [managerOptions, parsedHealthAddr, parsedMetricsBindAddr, parsedLogToStderr,
    parsedNamespace, h1, h2, h3, h4]

/-- Witness for C9 at a concrete configuration and an empty command
line. -/
theorem flag_defaults_witness :
    (managerOptions cfgSample {}).healthProbeBindAddress = ":9441" ∧
    (managerOptions cfgSample {}).metricsBindAddr = ":8081" ∧
    parsedLogToStderr {} = true ∧
    parsedNamespace cfgSample {} = cfgSample.defaultManagedNamespace :=
  flag_defaults cfgSample {} rfl rfl rfl rfl

/-- C10: once the initial observation has been signalled, getFeatureGates
returns the accessor with no error even when its own post-observation
snapshot read fails (that error is discarded, the snapshot feeding only a
log line); a failed snapshot read is made fatal only by the separate
CurrentFeatureGates call in main, which exits 1. -/
theorem probe_snapshot_error_discarded (cfg : ExternalConfig) (e : RunEnv)
    (hc : e.configClientOk = true) (ho : e.initialObservedWithin60s = true)
    (hp : e.currentFeatureGatesOkInProbe = false) :
    getFeatureGates cfg e = .ok (featureGateAccessArgs cfg) ∧
    (e.managerOk = true → e.currentFeatureGatesOkInMain = false →
      mainTrace e =
        [.setupLogger, .parseFlags, .newManager, .setupSignalHandler, .probeFeatureGates,
         .readCurrentFeatureGates, .osExit 1] ∧
      finalExitCode (mainTrace e) = some 1) := by
  constructor
  · simp [getFeatureGates, probeError, hc, ho]
  · intro hm hr
    have ht : mainTrace e =
        [.setupLogger, .parseFlags, .newManager, .setupSignalHandler, .probeFeatureGates,
         .readCurrentFeatureGates, .osExit 1] := by
      simp [mainTrace, probeError, hc, ho, hm, hr]
    exact ⟨ht, by rw [ht]; decide⟩

/-- Witness for C10 at a concrete configuration and a run whose two
snapshot reads both fail. -/
theorem probe_snapshot_error_discarded_witness :
    getFeatureGates cfgSample envSnapshotReadFails =
      .ok (featureGateAccessArgs cfgSample) ∧
    (envSnapshotReadFails.managerOk = true →
      envSnapshotReadFails.currentFeatureGatesOkInMain = false →
      mainTrace envSnapshotReadFails =
        [.setupLogger, .parseFlags, .newManager, .setupSignalHandler, .probeFeatureGates,
         .readCurrentFeatureGates, .osExit 1] ∧
      finalExitCode (mainTrace envSnapshotReadFails) = some 1) :=
  probe_snapshot_error_discarded cfgSample envSnapshotReadFails rfl rfl rfl

end MachineAPIMigration
